import Mathlib

/-!
Verification of the prorated-billing core of the food2home backend.

The development embeds, over exact rational arithmetic:
* the date utilities and proration engine of the utility module
  (`getDaysInMonth`, `calculateDaysBetween`, `calculateProratedAmount`,
  `needsProration`);
* the subscription-controller reconciliation rules: the overlap gate of
  `createSubscription`, the payment guards of `updateSubscription` and
  `deleteSubscription`, and the backfill
  `generatePaymentsForExistingSubscriptions`.

JavaScript `Math.round` is `⌊x + 1/2⌋` (half toward +∞); the engine's
two- and four-decimal roundings are modelled by `round2`/`round4` over ℚ.
Dates are Gregorian calendar dates; JS `Date` comparison and day-difference
arithmetic on midnight-normalized dates is modelled through a civil
day-number function.
-/

namespace Food2Home

/-- JS `Math.round x`: round half up, i.e. `⌊x + 1/2⌋`. -/
def jsRound (q : ℚ) : ℤ := ⌊q + 1/2⌋

/-- `Math.round (q * 100) / 100`: round to 2 decimal places. -/
def round2 (q : ℚ) : ℚ := (jsRound (q * 100) : ℚ) / 100

/-- `Math.round (q * 10000) / 10000`: round to 4 decimal places. -/
def round4 (q : ℚ) : ℚ := (jsRound (q * 10000) : ℚ) / 10000

/-- Gregorian leap-year rule, as implemented by the JS `Date` type. -/
def isLeapYear (y : ℤ) : Bool := (y % 4 == 0 && y % 100 != 0) || y % 400 == 0

/-- Embeds `getDaysInMonth (year, month) = new Date(year, month, 0).getDate()`:
the Gregorian length of the month (1 = January, ..., 12 = December). -/
def getDaysInMonth (year : ℤ) (month : ℕ) : ℕ :=
  if month == 2 then (if isLeapYear year then 29 else 28)
  else if month == 4 || month == 6 || month == 9 || month == 11 then 30
  else 31

/-- A JS `Date` normalized to midnight: a Gregorian calendar date. -/
structure JSDate where
  year : ℤ
  month : ℕ
  day : ℕ
deriving Repr, DecidableEq

/-- Civil day number (days since 1970-01-01) of a Gregorian date; this is
the value of `Date.getTime() / 86400000` for a midnight-normalized date. -/
def JSDate.dayNumber (dt : JSDate) : ℤ :=
  let y : ℤ := if dt.month ≤ 2 then dt.year - 1 else dt.year
  let era : ℤ := Int.fdiv y 400
  let yoe : ℤ := y - era * 400
  let mp : ℤ := if dt.month ≤ 2 then (dt.month : ℤ) + 9 else (dt.month : ℤ) - 3
  let doy : ℤ := (153 * mp + 2) / 5 + (dt.day : ℤ) - 1
  let doe : ℤ := yoe * 365 + yoe / 4 - yoe / 100 + doy
  era * 146097 + doe - 719468

/-- Embeds `calculateDaysBetween`: both dates are normalized to midnight,
their difference in whole days is taken, and 1 is added so that both
endpoints count. -/
def calculateDaysBetween (startDate endDate : JSDate) : ℤ :=
  endDate.dayNumber - startDate.dayNumber + 1

/-- A discount object `{ type, value }`. -/
structure Discount where
  type : String
  value : ℚ
deriving Repr, DecidableEq

/-- The record returned by `calculateProratedAmount`. -/
structure ProrationResult where
  basePricePerMonth : ℚ
  subscriptionDays : ℤ
  monthDays : ℕ
  proratedAmount : ℚ
  discountAmount : ℚ
  finalAmount : ℚ
  proratedRatio : ℚ
deriving Repr, DecidableEq

/-- The defensive zero result returned when price or a date is falsy. -/
def zeroProrationResult : ProrationResult :=
  { basePricePerMonth := 0, subscriptionDays := 0, monthDays := 30,
    proratedAmount := 0, discountAmount := 0, finalAmount := 0,
    proratedRatio := 0 }

/-- The reference month length used by the engine: the month's own length
for a same-month range, the half-up-rounded average of the two month
lengths for a cross-month range. -/
def referenceMonthDays (startDate endDate : JSDate) : ℕ :=
  if startDate.month == endDate.month && startDate.year == endDate.year then
    getDaysInMonth startDate.year startDate.month
  else
    (jsRound (((getDaysInMonth startDate.year startDate.month
        + getDaysInMonth endDate.year endDate.month : ℕ) : ℚ) / 2)).toNat

/-- Discount application of `calculateProratedAmount`: from the prorated
amount and ratio, compute `(discountAmount, finalAmount)`. An absent
discount, `value ≤ 0`, or an unrecognized `type` leaves the amount
undiscounted. -/
def applyDiscount (proratedAmount proratedRatio : ℚ) (discount : Option Discount) :
    ℚ × ℚ :=
  match discount with
  | some disc =>
    if 0 < disc.value then
      let discountAmount :=
        if disc.type == "percentage" then round2 (proratedAmount * disc.value / 100)
        else if disc.type == "fixed" then
          min (round2 (disc.value * proratedRatio)) proratedAmount
        else 0
      (discountAmount, max 0 (proratedAmount - discountAmount))
    else (0, proratedAmount)
  | none => (0, proratedAmount)

/-- Embeds `calculateProratedAmount`. `basePricePerMonth`, `startDate`,
`endDate` are `Option`s: `none` is a missing (`undefined`) argument, and a
price of `0` is falsy like a missing one. -/
def calculateProratedAmount (basePricePerMonth : Option ℚ)
    (startDate endDate : Option JSDate) (discount : Option Discount) :
    ProrationResult :=
  match basePricePerMonth, startDate, endDate with
  | some price, some start, some «end» =>
    if price == 0 then zeroProrationResult
    else
      let subscriptionDays := calculateDaysBetween start «end»
      let monthDays := referenceMonthDays start «end»
      let proratedRatio : ℚ := (subscriptionDays : ℚ) / (monthDays : ℚ)
      let proratedAmount := round2 (price * proratedRatio)
      let da := applyDiscount proratedAmount proratedRatio discount
      { basePricePerMonth := price,
        subscriptionDays := subscriptionDays,
        monthDays := monthDays,
        proratedAmount := round2 proratedAmount,
        discountAmount := round2 da.1,
        finalAmount := round2 da.2,
        proratedRatio := round4 proratedRatio }
  | _, _, _ => zeroProrationResult

/-- Embeds `needsProration`: `false` when a date is missing; for a
same-month range, `true` iff the inclusive day count is below 90% of the
month's length; `true` for every cross-month range. -/
def needsProration (startDate endDate : Option JSDate) : Bool :=
  match startDate, endDate with
  | some start, some «end» =>
    if start.month == «end».month && start.year == «end».year then
      let monthDays := getDaysInMonth start.year start.month
      let subscriptionDays := calculateDaysBetween start «end»
      decide ((subscriptionDays : ℚ) < (monthDays : ℚ) * (9/10))
    else true
  | _, _ => false

/-! ### Basic facts about the JS rounding helpers -/

theorem jsRound_intCast (n : ℤ) : jsRound (n : ℚ) = n := by
  rw [jsRound, Int.floor_int_add]
  norm_num

theorem jsRound_mono {a b : ℚ} (h : a ≤ b) : jsRound a ≤ jsRound b :=
  Int.floor_mono (by linarith)

theorem jsRound_ge {a : ℚ} {n : ℤ} (h : (n : ℚ) ≤ a) : n ≤ jsRound a :=
  Int.le_floor.mpr (by linarith)

theorem round2_mono {a b : ℚ} (h : a ≤ b) : round2 a ≤ round2 b := by
  unfold round2
  have h2 : (jsRound (a * 100) : ℚ) ≤ (jsRound (b * 100) : ℚ) := by
    exact_mod_cast jsRound_mono (by linarith)
  linarith

theorem round2_zero : round2 0 = 0 := by
  have h0 : jsRound ((0 : ℚ) * 100) = jsRound ((0 : ℤ) : ℚ) := by norm_num
  rw [round2, h0, jsRound_intCast]
  norm_num

theorem round2_nonneg {a : ℚ} (h : 0 ≤ a) : 0 ≤ round2 a := by
  rw [show (0 : ℚ) = round2 0 from round2_zero.symm]
  exact round2_mono h

/-- Rationals on the hundredth grid: the fixed points of `round2`. -/
def Cent (q : ℚ) : Prop := ∃ n : ℤ, q = (n : ℚ) / 100

theorem Cent.round2_eq {q : ℚ} (h : Cent q) : round2 q = q := by
  obtain ⟨n, rfl⟩ := h
  rw [round2]
  have hmul : (n : ℚ) / 100 * 100 = (n : ℚ) := by field_simp
  rw [hmul, jsRound_intCast]

theorem cent_round2 (q : ℚ) : Cent (round2 q) := ⟨jsRound (q * 100), rfl⟩

theorem cent_zero : Cent 0 := ⟨0, by norm_num⟩

theorem Cent.sub {a b : ℚ} (ha : Cent a) (hb : Cent b) : Cent (a - b) := by
  obtain ⟨m, rfl⟩ := ha
  obtain ⟨n, rfl⟩ := hb
  exact ⟨m - n, by push_cast; ring⟩

theorem Cent.min {a b : ℚ} (ha : Cent a) (hb : Cent b) : Cent (min a b) := by
  rcases le_total a b with h | h
  · rwa [min_eq_left h]
  · rwa [min_eq_right h]

theorem Cent.max {a b : ℚ} (ha : Cent a) (hb : Cent b) : Cent (max a b) := by
  rcases le_total a b with h | h
  · rwa [max_eq_right h]
  · rwa [max_eq_left h]

/-! ### Structural facts about the proration engine -/

theorem getDaysInMonth_ge (y : ℤ) (m : ℕ) : 28 ≤ getDaysInMonth y m := by
  unfold getDaysInMonth
  split_ifs <;> norm_num

theorem referenceMonthDays_ge (s e : JSDate) : 28 ≤ referenceMonthDays s e := by
  unfold referenceMonthDays
  split
  · exact getDaysInMonth_ge _ _
  · have h1 := getDaysInMonth_ge s.year s.month
    have h2 := getDaysInMonth_ge e.year e.month
    have h28 : (28 : ℤ) ≤ jsRound
        (((getDaysInMonth s.year s.month + getDaysInMonth e.year e.month : ℕ) : ℚ) / 2) := by
      apply jsRound_ge
      have h1q : (28 : ℚ) ≤ (getDaysInMonth s.year s.month : ℚ) := by exact_mod_cast h1
      have h2q : (28 : ℚ) ≤ (getDaysInMonth e.year e.month : ℚ) := by exact_mod_cast h2
      push_cast
      linarith
    omega

theorem referenceMonthDays_pos (s e : JSDate) : 0 < referenceMonthDays s e :=
  lt_of_lt_of_le (by norm_num) (referenceMonthDays_ge s e)

theorem calculateDaysBetween_pos {s e : JSDate} (h : s.dayNumber ≤ e.dayNumber) :
    0 < calculateDaysBetween s e := by
  unfold calculateDaysBetween
  omega

/-- Unfolding of `calculateProratedAmount` on present price and dates with a
non-zero price. -/
theorem calculateProratedAmount_eq (p : ℚ) (s e : JSDate) (d : Option Discount)
    (hp : p ≠ 0) :
    calculateProratedAmount (some p) (some s) (some e) d =
      { basePricePerMonth := p,
        subscriptionDays := calculateDaysBetween s e,
        monthDays := referenceMonthDays s e,
        proratedAmount := round2 (round2 (p * ((calculateDaysBetween s e : ℚ) /
          (referenceMonthDays s e : ℚ)))),
        discountAmount := round2 (applyDiscount
          (round2 (p * ((calculateDaysBetween s e : ℚ) / (referenceMonthDays s e : ℚ))))
          ((calculateDaysBetween s e : ℚ) / (referenceMonthDays s e : ℚ)) d).1,
        finalAmount := round2 (applyDiscount
          (round2 (p * ((calculateDaysBetween s e : ℚ) / (referenceMonthDays s e : ℚ))))
          ((calculateDaysBetween s e : ℚ) / (referenceMonthDays s e : ℚ)) d).2,
        proratedRatio := round4 ((calculateDaysBetween s e : ℚ) /
          (referenceMonthDays s e : ℚ)) } := by
  rw [calculateProratedAmount]
  simp only [beq_iff_eq, hp, if_false]

theorem applyDiscount_bounds {pa ratio : ℚ} (hpa : 0 ≤ pa) (hr : 0 ≤ ratio)
    (d : Option Discount) :
    0 ≤ (applyDiscount pa ratio d).1 ∧ 0 ≤ (applyDiscount pa ratio d).2 ∧
      (applyDiscount pa ratio d).2 ≤ pa := by
  cases d with
  | none => simpa [applyDiscount] using hpa
  | some disc =>
    simp only [applyDiscount]
    split_ifs with h1 h2 h3
    · have hda : 0 ≤ round2 (pa * disc.value / 100) :=
        round2_nonneg (by positivity)
      exact ⟨hda, le_max_left _ _, max_le hpa (by linarith)⟩
    · have hda : 0 ≤ min (round2 (disc.value * ratio)) pa :=
        le_min (round2_nonneg (by positivity)) hpa
      exact ⟨hda, le_max_left _ _, max_le hpa (by linarith)⟩
    · exact ⟨le_refl 0, le_max_left _ _, max_le hpa (by linarith)⟩
    · exact ⟨le_refl 0, hpa, le_refl pa⟩

theorem applyDiscount_cent {pa : ℚ} (ratio : ℚ) (hpa : Cent pa) (d : Option Discount) :
    Cent (applyDiscount pa ratio d).1 ∧ Cent (applyDiscount pa ratio d).2 := by
  cases d with
  | none => exact ⟨cent_zero, hpa⟩
  | some disc =>
    simp only [applyDiscount]
    split_ifs with h1 h2 h3
    · exact ⟨cent_round2 _, Cent.max cent_zero (hpa.sub (cent_round2 _))⟩
    · exact ⟨Cent.min (cent_round2 _) hpa, Cent.max cent_zero (hpa.sub (Cent.min (cent_round2 _) hpa))⟩
    · exact ⟨cent_zero, Cent.max cent_zero (hpa.sub cent_zero)⟩
    · exact ⟨cent_zero, hpa⟩

theorem applyDiscount_fst_le {pa ratio : ℚ} (hpa : 0 ≤ pa) (hcent : Cent pa)
    (d : Option Discount)
    (hd : ∀ disc ∈ d, disc.type = "fixed" ∨ disc.value ≤ 100) :
    (applyDiscount pa ratio d).1 ≤ pa := by
  cases d with
  | none => simpa [applyDiscount] using hpa
  | some disc =>
    simp only [applyDiscount]
    split_ifs with h1 h2 h3
    · have hty : disc.type = "percentage" := by simpa [beq_iff_eq] using h2
      have hv : disc.value ≤ 100 := by
        rcases hd disc rfl with hfx | hle
        · rw [hty] at hfx; exact absurd hfx (by simp)
        · exact hle
      have hmul : pa * disc.value ≤ pa * 100 :=
        mul_le_mul_of_nonneg_left hv hpa
      calc round2 (pa * disc.value / 100) ≤ round2 pa :=
            round2_mono (by linarith)
        _ = pa := hcent.round2_eq
    · exact min_le_right _ _
    · exact hpa
    · exact hpa

/-- C1 (amended): for a positive monthly price, an end date not before the
start date, and a non-negative discount of type percentage or fixed, the
result of `calculateProratedAmount` has `finalAmount ≥ 0` and
`finalAmount ≤ proratedAmount`; and `discountAmount ≤ proratedAmount`
provided the discount is fixed, or is a percentage of at most 100. -/
theorem C1_proration_invariants (p : ℚ) (s e : JSDate) (d : Option Discount)
    (hp : 0 < p) (hse : s.dayNumber ≤ e.dayNumber)
    (hd : ∀ disc ∈ d, 0 ≤ disc.value ∧
      (disc.type = "percentage" ∨ disc.type = "fixed")) :
    0 ≤ (calculateProratedAmount (some p) (some s) (some e) d).finalAmount ∧
    (calculateProratedAmount (some p) (some s) (some e) d).finalAmount ≤
      (calculateProratedAmount (some p) (some s) (some e) d).proratedAmount ∧
    ((∀ disc ∈ d, disc.type = "fixed" ∨ disc.value ≤ 100) →
      (calculateProratedAmount (some p) (some s) (some e) d).discountAmount ≤
        (calculateProratedAmount (some p) (some s) (some e) d).proratedAmount) := by
  rw [calculateProratedAmount_eq p s e d (ne_of_gt hp)]
  dsimp only
  set ratio : ℚ := (calculateDaysBetween s e : ℚ) / (referenceMonthDays s e : ℚ)
    with hratio
  set pa : ℚ := round2 (p * ratio) with hpadef
  have hrnn : 0 ≤ ratio := by
    rw [hratio]
    apply div_nonneg
    · exact_mod_cast le_of_lt (calculateDaysBetween_pos hse)
    · positivity
  have hpann : 0 ≤ pa := round2_nonneg (mul_nonneg (le_of_lt hp) hrnn)
  have hpacent : Cent pa := cent_round2 _
  have hbounds := applyDiscount_bounds hpann hrnn d
  have hcent := applyDiscount_cent ratio hpacent d
  rw [hpacent.round2_eq, hcent.1.round2_eq, hcent.2.round2_eq]
  exact ⟨hbounds.2.1, hbounds.2.2, fun hle =>
    applyDiscount_fst_le hpann hpacent d hle⟩

/-- C1 counterexample: all hypotheses of the claim hold for a 200%
percentage discount (value ≥ 0, price > 0, end ≥ start), yet the returned
`discountAmount` (310.34) exceeds the returned `proratedAmount` (155.17). -/
theorem C1_counterexample :
    0 < (300 : ℚ) ∧
    JSDate.dayNumber ⟨2024, 2, 1⟩ ≤ JSDate.dayNumber ⟨2024, 2, 15⟩ ∧
    (0 : ℚ) ≤ 200 ∧
    ¬ ((calculateProratedAmount (some 300) (some ⟨2024, 2, 1⟩)
          (some ⟨2024, 2, 15⟩) (some ⟨"percentage", 200⟩)).discountAmount ≤
        (calculateProratedAmount (some 300) (some ⟨2024, 2, 1⟩)
          (some ⟨2024, 2, 15⟩) (some ⟨"percentage", 200⟩)).proratedAmount) := by
  refine ⟨by norm_num, by norm_num [JSDate.dayNumber], by norm_num, ?_⟩
  norm_num [calculateProratedAmount, calculateDaysBetween, referenceMonthDays,
    JSDate.dayNumber, getDaysInMonth, isLeapYear, applyDiscount, round2, round4,
    jsRound, Int.fdiv]

/-- C1 witness: the amended invariants, instantiated at the spec's
leap-February example with a 10% percentage discount. -/
theorem C1_witness :
    0 ≤ (calculateProratedAmount (some 300) (some ⟨2024, 2, 1⟩)
          (some ⟨2024, 2, 15⟩) (some ⟨"percentage", 10⟩)).finalAmount ∧
    (calculateProratedAmount (some 300) (some ⟨2024, 2, 1⟩)
          (some ⟨2024, 2, 15⟩) (some ⟨"percentage", 10⟩)).finalAmount ≤
      (calculateProratedAmount (some 300) (some ⟨2024, 2, 1⟩)
          (some ⟨2024, 2, 15⟩) (some ⟨"percentage", 10⟩)).proratedAmount ∧
    ((∀ disc ∈ (some ⟨"percentage", 10⟩ : Option Discount),
        disc.type = "fixed" ∨ disc.value ≤ 100) →
      (calculateProratedAmount (some 300) (some ⟨2024, 2, 1⟩)
          (some ⟨2024, 2, 15⟩) (some ⟨"percentage", 10⟩)).discountAmount ≤
        (calculateProratedAmount (some 300) (some ⟨2024, 2, 1⟩)
          (some ⟨2024, 2, 15⟩) (some ⟨"percentage", 10⟩)).proratedAmount) :=
  C1_proration_invariants 300 ⟨2024, 2, 1⟩ ⟨2024, 2, 15⟩ (some ⟨"percentage", 10⟩)
    (by norm_num) (by norm_num [JSDate.dayNumber])
    (by
      intro disc hm
      rw [Option.mem_def, Option.some.injEq] at hm
      subst hm
      exact ⟨by norm_num, Or.inl rfl⟩)

/-- C3: the two concrete examples of the spec. A February 2024 half-month
at price 300 with a 10% discount yields 15 of 29 days, ratio 0.5172,
prorated 155.17, discount 15.52, final 139.65; the cross-month range
Jan 28 – Feb 2, 2024 at price 200 yields 6 of 30 days, ratio 0.2,
prorated 40. -/
theorem C3_concrete_examples :
    (calculateProratedAmount (some 300) (some ⟨2024, 2, 1⟩) (some ⟨2024, 2, 15⟩)
      (some ⟨"percentage", 10⟩)).subscriptionDays = 15 ∧
    (calculateProratedAmount (some 300) (some ⟨2024, 2, 1⟩) (some ⟨2024, 2, 15⟩)
      (some ⟨"percentage", 10⟩)).monthDays = 29 ∧
    (calculateProratedAmount (some 300) (some ⟨2024, 2, 1⟩) (some ⟨2024, 2, 15⟩)
      (some ⟨"percentage", 10⟩)).proratedRatio = 0.5172 ∧
    (calculateProratedAmount (some 300) (some ⟨2024, 2, 1⟩) (some ⟨2024, 2, 15⟩)
      (some ⟨"percentage", 10⟩)).proratedAmount = 155.17 ∧
    (calculateProratedAmount (some 300) (some ⟨2024, 2, 1⟩) (some ⟨2024, 2, 15⟩)
      (some ⟨"percentage", 10⟩)).discountAmount = 15.52 ∧
    (calculateProratedAmount (some 300) (some ⟨2024, 2, 1⟩) (some ⟨2024, 2, 15⟩)
      (some ⟨"percentage", 10⟩)).finalAmount = 139.65 ∧
    (calculateProratedAmount (some 200) (some ⟨2024, 1, 28⟩) (some ⟨2024, 2, 2⟩)
      none).subscriptionDays = 6 ∧
    (calculateProratedAmount (some 200) (some ⟨2024, 1, 28⟩) (some ⟨2024, 2, 2⟩)
      none).monthDays = 30 ∧
    (calculateProratedAmount (some 200) (some ⟨2024, 1, 28⟩) (some ⟨2024, 2, 2⟩)
      none).proratedRatio = 0.2 ∧
    (calculateProratedAmount (some 200) (some ⟨2024, 1, 28⟩) (some ⟨2024, 2, 2⟩)
      none).proratedAmount = 40 := by
  norm_num [calculateProratedAmount, calculateDaysBetween, referenceMonthDays,
    JSDate.dayNumber, getDaysInMonth, isLeapYear, applyDiscount, round2, round4,
    jsRound, Int.fdiv, Int.toNat]

/-- C4: on present dates and a non-zero price, the returned `monthDays` is
the Gregorian length of the (single) month for a same-month range, and the
half-up-rounded average of the two month lengths for a cross-month range;
and the month-length function obeys the Gregorian leap-year rule. -/
theorem C4_monthDays (p : ℚ) (s e : JSDate) (d : Option Discount) (hp : p ≠ 0) :
    ((s.month = e.month ∧ s.year = e.year) →
      (calculateProratedAmount (some p) (some s) (some e) d).monthDays =
        getDaysInMonth s.year s.month) ∧
    (¬(s.month = e.month ∧ s.year = e.year) →
      (calculateProratedAmount (some p) (some s) (some e) d).monthDays =
        (jsRound (((getDaysInMonth s.year s.month
          + getDaysInMonth e.year e.month : ℕ) : ℚ) / 2)).toNat) ∧
    (∀ y : ℤ, getDaysInMonth y 2 =
      if (4 ∣ y ∧ ¬(100 ∣ y)) ∨ 400 ∣ y then 29 else 28) := by
  rw [calculateProratedAmount_eq p s e d hp]
  dsimp only
  refine ⟨fun h => ?_, fun h => ?_, fun y => ?_⟩
  · rw [referenceMonthDays, if_pos (by simp [h.1, h.2])]
  · rw [referenceMonthDays,
      if_neg (by simpa [Bool.and_eq_true, beq_iff_eq] using h)]
  · have h2 : getDaysInMonth y 2 = if isLeapYear y then 29 else 28 := by
      simp [getDaysInMonth]
    rw [h2]
    refine if_congr ?_ rfl rfl
    rw [isLeapYear]
    simp only [Bool.or_eq_true, Bool.and_eq_true, beq_iff_eq, bne_iff_ne, ne_eq,
      Int.dvd_iff_emod_eq_zero]

/-- C4 witness: the same-month branch at the leap-February example. -/
theorem C4_witness :
    (((⟨2024, 2, 1⟩ : JSDate).month = (⟨2024, 2, 15⟩ : JSDate).month ∧
        (⟨2024, 2, 1⟩ : JSDate).year = (⟨2024, 2, 15⟩ : JSDate).year) →
      (calculateProratedAmount (some 300) (some ⟨2024, 2, 1⟩)
          (some ⟨2024, 2, 15⟩) none).monthDays =
        getDaysInMonth (2024 : ℤ) 2) ∧
    (¬((⟨2024, 2, 1⟩ : JSDate).month = (⟨2024, 2, 15⟩ : JSDate).month ∧
        (⟨2024, 2, 1⟩ : JSDate).year = (⟨2024, 2, 15⟩ : JSDate).year) →
      (calculateProratedAmount (some 300) (some ⟨2024, 2, 1⟩)
          (some ⟨2024, 2, 15⟩) none).monthDays =
        (jsRound (((getDaysInMonth (2024 : ℤ) 2
          + getDaysInMonth (2024 : ℤ) 2 : ℕ) : ℚ) / 2)).toNat) ∧
    (∀ y : ℤ, getDaysInMonth y 2 =
      if (4 ∣ y ∧ ¬(100 ∣ y)) ∨ 400 ∣ y then 29 else 28) :=
  C4_monthDays 300 ⟨2024, 2, 1⟩ ⟨2024, 2, 15⟩ none (by norm_num)

/-- The fixed-discount branch of the engine's discount application. -/
theorem applyDiscount_fixed (pa ratio v : ℚ) (hv : 0 < v) :
    applyDiscount pa ratio (some ⟨"fixed", v⟩) =
      (min (round2 (v * ratio)) pa,
        max 0 (pa - min (round2 (v * ratio)) pa)) := by
  simp [applyDiscount, hv]

/-- C5: a positive fixed discount is first prorated by the full-precision
ratio `subscriptionDays / monthDays` (rounded to two decimals) and then
capped at the prorated amount. -/
theorem C5_fixed_discount_prorated (p : ℚ) (s e : JSDate) (v : ℚ)
    (hp : p ≠ 0) (hv : 0 < v) :
    (calculateProratedAmount (some p) (some s) (some e)
        (some ⟨"fixed", v⟩)).discountAmount =
      min (round2 (v *
          (((calculateProratedAmount (some p) (some s) (some e)
              (some ⟨"fixed", v⟩)).subscriptionDays : ℚ) /
            ((calculateProratedAmount (some p) (some s) (some e)
              (some ⟨"fixed", v⟩)).monthDays : ℚ))))
        (calculateProratedAmount (some p) (some s) (some e)
          (some ⟨"fixed", v⟩)).proratedAmount := by
  rw [calculateProratedAmount_eq _ _ _ _ hp, applyDiscount_fixed _ _ _ hv]
  dsimp only
  rw [(Cent.min (cent_round2 _) (cent_round2 _)).round2_eq,
    (cent_round2 _).round2_eq]

/-- C5 witness: a fixed discount of 50 on the leap-February half-month. -/
theorem C5_witness :
    (calculateProratedAmount (some 300) (some ⟨2024, 2, 1⟩)
        (some ⟨2024, 2, 15⟩) (some ⟨"fixed", 50⟩)).discountAmount =
      min (round2 (50 *
          (((calculateProratedAmount (some 300) (some ⟨2024, 2, 1⟩)
              (some ⟨2024, 2, 15⟩) (some ⟨"fixed", 50⟩)).subscriptionDays : ℚ) /
            ((calculateProratedAmount (some 300) (some ⟨2024, 2, 1⟩)
              (some ⟨2024, 2, 15⟩) (some ⟨"fixed", 50⟩)).monthDays : ℚ))))
        (calculateProratedAmount (some 300) (some ⟨2024, 2, 1⟩)
          (some ⟨2024, 2, 15⟩) (some ⟨"fixed", 50⟩)).proratedAmount :=
  C5_fixed_discount_prorated 300 ⟨2024, 2, 1⟩ ⟨2024, 2, 15⟩ 50
    (by norm_num) (by norm_num)

/-- C6: on present dates, `needsProration` is `false` exactly when the two
dates share month and year and the inclusive day count reaches 90% of that
month's length; every cross-month range needs proration. -/
theorem C6_needsProration (s e : JSDate) (hse : s.dayNumber ≤ e.dayNumber) :
    (needsProration (some s) (some e) = false ↔
      s.month = e.month ∧ s.year = e.year ∧
        (getDaysInMonth s.year s.month : ℚ) * (9/10) ≤
          (calculateDaysBetween s e : ℚ)) ∧
    (¬(s.month = e.month ∧ s.year = e.year) →
      needsProration (some s) (some e) = true) := by
  rw [needsProration]
  by_cases h : s.month = e.month ∧ s.year = e.year
  · rw [if_pos (by simp [h.1, h.2])]
    constructor
    · rw [decide_eq_false_iff_not, not_lt]
      exact ⟨fun hle => ⟨h.1, h.2, hle⟩, fun hc => hc.2.2⟩
    · exact fun hn => absurd h hn
  · rw [if_neg (by simpa [Bool.and_eq_true, beq_iff_eq] using h)]
    constructor
    · constructor
      · intro habs; exact absurd habs (by simp)
      · intro hc; exact absurd ⟨hc.1, hc.2.1⟩ h
    · intro _; rfl

/-- C6 witness: March 1–28, 2024 covers 28 of 31 days (≥ 27.9), so no
proration is needed. -/
theorem C6_witness :
    (needsProration (some ⟨2024, 3, 1⟩) (some ⟨2024, 3, 28⟩) = false ↔
      (⟨2024, 3, 1⟩ : JSDate).month = (⟨2024, 3, 28⟩ : JSDate).month ∧
      (⟨2024, 3, 1⟩ : JSDate).year = (⟨2024, 3, 28⟩ : JSDate).year ∧
        (getDaysInMonth ((⟨2024, 3, 1⟩ : JSDate).year)
            ((⟨2024, 3, 1⟩ : JSDate).month) : ℚ) * (9/10) ≤
          (calculateDaysBetween ⟨2024, 3, 1⟩ ⟨2024, 3, 28⟩ : ℚ)) ∧
    (¬((⟨2024, 3, 1⟩ : JSDate).month = (⟨2024, 3, 28⟩ : JSDate).month ∧
        (⟨2024, 3, 1⟩ : JSDate).year = (⟨2024, 3, 28⟩ : JSDate).year) →
      needsProration (some ⟨2024, 3, 1⟩) (some ⟨2024, 3, 28⟩) = true) :=
  C6_needsProration ⟨2024, 3, 1⟩ ⟨2024, 3, 28⟩ (by norm_num [JSDate.dayNumber])

/-- C8: a missing or zero price, or a missing date, yields the fixed
defensive zero result with `monthDays = 30`, for every discount. -/
theorem C8_zero_result (p : Option ℚ) (s e : Option JSDate) (d : Option Discount)
    (h : p = none ∨ p = some 0 ∨ s = none ∨ e = none) :
    calculateProratedAmount p s e d =
      { basePricePerMonth := 0, subscriptionDays := 0, monthDays := 30,
        proratedAmount := 0, discountAmount := 0, finalAmount := 0,
        proratedRatio := 0 } := by
  rcases h with rfl | rfl | rfl | rfl
  · cases s <;> cases e <;> rfl
  · cases s <;> cases e <;> simp [calculateProratedAmount, zeroProrationResult]
  · cases p <;> cases e <;> rfl
  · cases p <;> cases s <;> rfl

/-- C8 witness: all three inputs missing. -/
theorem C8_witness :
    calculateProratedAmount none none none none =
      { basePricePerMonth := 0, subscriptionDays := 0, monthDays := 30,
        proratedAmount := 0, discountAmount := 0, finalAmount := 0,
        proratedRatio := 0 } :=
  C8_zero_result none none none none (Or.inl rfl)

/-- C10: a positive discount whose type is neither `percentage` nor `fixed`
is silently ignored: `discountAmount = 0` and `finalAmount` equals the
prorated amount. -/
theorem C10_unknown_discount_type (p : ℚ) (s e : JSDate) (disc : Discount)
    (hp : 0 < p) (hse : s.dayNumber ≤ e.dayNumber) (hv : 0 < disc.value)
    (h1 : disc.type ≠ "percentage") (h2 : disc.type ≠ "fixed") :
    (calculateProratedAmount (some p) (some s) (some e)
      (some disc)).discountAmount = 0 ∧
    (calculateProratedAmount (some p) (some s) (some e)
        (some disc)).finalAmount =
      (calculateProratedAmount (some p) (some s) (some e)
        (some disc)).proratedAmount := by
  rw [calculateProratedAmount_eq _ _ _ _ (ne_of_gt hp)]
  dsimp only
  set ratio : ℚ := (calculateDaysBetween s e : ℚ) / (referenceMonthDays s e : ℚ)
    with hratio
  set pa : ℚ := round2 (p * ratio) with hpadef
  have happ : applyDiscount pa ratio (some disc) = (0, max 0 (pa - 0)) := by
    simp [applyDiscount, hv, h1, h2]
  have hrnn : 0 ≤ ratio := by
    rw [hratio]
    apply div_nonneg
    · exact_mod_cast le_of_lt (calculateDaysBetween_pos hse)
    · positivity
  have hpann : 0 ≤ pa := round2_nonneg (mul_nonneg (le_of_lt hp) hrnn)
  rw [happ]
  dsimp only
  rw [sub_zero, max_eq_right hpann, round2_zero]
  exact ⟨rfl, rfl⟩

/-- C10 witness: a "loyalty"-typed discount of 25 on the leap-February
half-month is ignored. -/
theorem C10_witness :
    (calculateProratedAmount (some 300) (some ⟨2024, 2, 1⟩)
      (some ⟨2024, 2, 15⟩) (some ⟨"loyalty", 25⟩)).discountAmount = 0 ∧
    (calculateProratedAmount (some 300) (some ⟨2024, 2, 1⟩)
        (some ⟨2024, 2, 15⟩) (some ⟨"loyalty", 25⟩)).finalAmount =
      (calculateProratedAmount (some 300) (some ⟨2024, 2, 1⟩)
        (some ⟨2024, 2, 15⟩) (some ⟨"loyalty", 25⟩)).proratedAmount :=
  C10_unknown_discount_type 300 ⟨2024, 2, 1⟩ ⟨2024, 2, 15⟩ ⟨"loyalty", 25⟩
    (by norm_num) (by norm_num [JSDate.dayNumber]) (by norm_num)
    (by simp) (by simp)

/-! ### Subscription-controller reconciliation layer

Customers, meal plans and Mongo documents are identified by numeric ids;
the data store is a list of documents. Date fields hold midnight-normalized
dates, so Mongo date comparison is comparison of civil day numbers, and the
`toDateString()`-based period snapshot of a payment distinguishes exactly
the calendar dates, modelled by storing the date pair itself. -/

/-- A `CustomerSubscription` document (the fields the reconciliation rules
read). -/
structure Subscription where
  id : ℕ
  customerId : ℕ
  mealPlanId : ℕ
  periodMonth : ℕ
  periodYear : ℤ
  startDate : JSDate
  endDate : JSDate
  status : String
  basePricePerMonth : ℚ
  discount : Option Discount
deriving Repr, DecidableEq

/-- A `Payment` document (the fields the reconciliation rules read). -/
structure Payment where
  customer : ℕ
  month : ℕ
  year : ℤ
  periodStart : JSDate
  periodEnd : JSDate
  amountDue : ℚ
deriving Repr, DecidableEq

/-- The overlap test of `createSubscription`: an existing subscription of
the same customer with `startDate ≤ newEnd` and `endDate ≥ newStart`. -/
def overlapsWith (cid : ℕ) (startDate endDate : JSDate) (sub : Subscription) :
    Bool :=
  sub.customerId == cid &&
    decide (sub.startDate.dayNumber ≤ endDate.dayNumber) &&
    decide (startDate.dayNumber ≤ sub.endDate.dayNumber)

/-- Outcome of `createSubscription`: the error responses, or the stores
after the subscription and its derived payment are written. -/
inductive CreateOutcome where
  | customerNotFound
  | mealPlanNotFound
  | overlapRejected
  | created (subs : List Subscription) (payments : List Payment)
deriving Repr, DecidableEq

/-- The payment record derived from a freshly created subscription: tagged
with the request's `(month, year)`, snapshotting the subscription period,
due the engine's `finalAmount`. -/
def derivedPayment (cid : ℕ) (pm : ℕ) (py : ℤ) (startDate endDate : JSDate)
    (price : ℚ) (discount : Option Discount) : Payment :=
  { customer := cid, month := pm, year := py,
    periodStart := startDate, periodEnd := endDate,
    amountDue := (calculateProratedAmount (some price) (some startDate)
      (some endDate) discount).finalAmount }

/-- Embeds `createSubscription`: 404 on unknown customer or meal plan,
rejection when any subscription of the customer overlaps the new range,
otherwise the subscription and its derived payment are appended. A missing
or zero request price falls back to the meal plan's base price. -/
def createSubscription (customers : List ℕ) (mealPlans : List (ℕ × ℚ))
    (subs : List Subscription) (payments : List Payment)
    (newId cid mid : ℕ) (pm : ℕ) (py : ℤ) (startDate endDate : JSDate)
    (reqPrice : Option ℚ) (discount : Option Discount) : CreateOutcome :=
  if ¬ customers.contains cid then .customerNotFound
  else
    match mealPlans.find? (fun plan => plan.1 == mid) with
    | none => .mealPlanNotFound
    | some plan =>
      if subs.any (overlapsWith cid startDate endDate) then .overlapRejected
      else
        let price := match reqPrice with
          | some q => if q == 0 then plan.2 else q
          | none => plan.2
        let newSub : Subscription :=
          { id := newId, customerId := cid, mealPlanId := mid,
            periodMonth := pm, periodYear := py,
            startDate := startDate, endDate := endDate,
            status := "active", basePricePerMonth := price,
            discount := discount }
        .created (subs ++ [newSub])
          (payments ++ [derivedPayment cid pm py startDate endDate price discount])

/-- The payment filter of the `updateSubscription` guard: same customer,
`year` within the start/end years, and `month` within the start/end month
numbers. -/
def updateBlockingPayment (sub : Subscription) (p : Payment) : Bool :=
  p.customer == sub.customerId &&
    decide (sub.startDate.year ≤ p.year) && decide (p.year ≤ sub.endDate.year) &&
    decide (sub.startDate.month ≤ p.month) && decide (p.month ≤ sub.endDate.month)

/-- The payment filter of the `deleteSubscription` guard: same customer and
`year` within the start/end years. -/
def deleteBlockingPayment (sub : Subscription) (p : Payment) : Bool :=
  p.customer == sub.customerId &&
    decide (sub.startDate.year ≤ p.year) && decide (p.year ≤ sub.endDate.year)

/-- Errors of the mutation endpoints. -/
inductive MutationError where
  | notFound
  | paymentsExist
deriving Repr, DecidableEq

/-- Embeds `updateSubscription`: 404 when the id is unknown; rejected when
some payment of the customer passes the year-and-month filter; otherwise
the update is applied. -/
def updateSubscription (subs : List Subscription) (payments : List Payment)
    (id : ℕ) (applyUpdate : Subscription → Subscription) :
    Except MutationError (List Subscription) :=
  match subs.find? (fun sub => sub.id == id) with
  | none => .error .notFound
  | some sub =>
    if payments.any (updateBlockingPayment sub) then .error .paymentsExist
    else .ok (subs.map (fun t => if t.id == id then applyUpdate t else t))

/-- Embeds `deleteSubscription`: 404 when the id is unknown; rejected when
some payment of the customer passes the year filter; otherwise the
subscription is removed. -/
def deleteSubscription (subs : List Subscription) (payments : List Payment)
    (id : ℕ) : Except MutationError (List Subscription) :=
  match subs.find? (fun sub => sub.id == id) with
  | none => .error .notFound
  | some sub =>
    if payments.any (deleteBlockingPayment sub) then .error .paymentsExist
    else .ok (subs.filter (fun t => !(t.id == id)))

/-- The backfill's idempotency match: a payment for the same customer,
period month, period year, and the exact period snapshot. -/
def paymentMatches (sub : Subscription) (p : Payment) : Bool :=
  p.customer == sub.customerId && p.month == sub.periodMonth &&
    p.year == sub.periodYear &&
    p.periodStart == sub.startDate && p.periodEnd == sub.endDate

/-- The payment the backfill synthesizes for a subscription. -/
def backfillPayment (sub : Subscription) : Payment :=
  { customer := sub.customerId, month := sub.periodMonth,
    year := sub.periodYear,
    periodStart := sub.startDate, periodEnd := sub.endDate,
    amountDue := (calculateProratedAmount (some sub.basePricePerMonth)
      (some sub.startDate) (some sub.endDate) sub.discount).finalAmount }

/-- The backfill loop: for each subscription in turn, skip it when the
store already holds a matching payment, otherwise create one (visible to
the remaining iterations). Returns the final store and the list of created
payments. -/
def backfillLoop : List Subscription → List Payment →
    List Payment × List Payment
  | [], store => (store, [])
  | sub :: rest, store =>
    if store.any (paymentMatches sub) then backfillLoop rest store
    else
      let p := backfillPayment sub
      let res := backfillLoop rest (store ++ [p])
      (res.1, p :: res.2)

/-- Embeds `generatePaymentsForExistingSubscriptions`: run the backfill
loop over the active subscriptions. -/
def generatePaymentsForExistingSubscriptions (subs : List Subscription)
    (store : List Payment) : List Payment × List Payment :=
  backfillLoop (subs.filter (fun sub => sub.status == "active")) store

theorem any_overlapsWith_iff (subs : List Subscription) (cid : ℕ)
    (sd ed : JSDate) :
    (subs.any (overlapsWith cid sd ed) = true) ↔
      ∃ sub ∈ subs, sub.customerId = cid ∧
        sub.startDate.dayNumber ≤ ed.dayNumber ∧
        sd.dayNumber ≤ sub.endDate.dayNumber := by
  rw [List.any_eq_true]
  constructor
  · rintro ⟨sub, hmem, hb⟩
    rw [overlapsWith, Bool.and_eq_true, Bool.and_eq_true] at hb
    exact ⟨sub, hmem, by simpa using hb.1.1, by simpa using hb.1.2,
      by simpa using hb.2⟩
  · rintro ⟨sub, hmem, h1, h2, h3⟩
    exact ⟨sub, hmem, by simp [overlapsWith, h1, h2, h3]⟩

/-- C7: with the customer and meal plan present, subscription creation is
rejected (leaving both stores unwritten) exactly when an existing
subscription of the same customer satisfies the closed-interval overlap
test `existingStart ≤ newEnd ∧ existingEnd ≥ newStart`; absent such an
overlap, the subscription and its derived payment are appended. -/
theorem C7_overlap_gate (customers : List ℕ) (mealPlans : List (ℕ × ℚ))
    (subs : List Subscription) (payments : List Payment)
    (newId cid mid pm : ℕ) (py : ℤ) (sd ed : JSDate)
    (reqPrice : Option ℚ) (d : Option Discount) (plan : ℕ × ℚ)
    (hc : customers.contains cid = true)
    (hm : mealPlans.find? (fun pl => pl.1 == mid) = some plan) :
    (createSubscription customers mealPlans subs payments newId cid mid pm py
        sd ed reqPrice d = .overlapRejected ↔
      ∃ sub ∈ subs, sub.customerId = cid ∧
        sub.startDate.dayNumber ≤ ed.dayNumber ∧
        sd.dayNumber ≤ sub.endDate.dayNumber) ∧
    ((¬ ∃ sub ∈ subs, sub.customerId = cid ∧
        sub.startDate.dayNumber ≤ ed.dayNumber ∧
        sd.dayNumber ≤ sub.endDate.dayNumber) →
      ∃ newSub newPay,
        createSubscription customers mealPlans subs payments newId cid mid pm py
          sd ed reqPrice d = .created (subs ++ [newSub]) (payments ++ [newPay])) := by
  rw [createSubscription, if_neg (not_not_intro hc), hm]
  dsimp only
  by_cases hov : subs.any (overlapsWith cid sd ed) = true
  · rw [if_pos hov]
    refine ⟨iff_of_true rfl ((any_overlapsWith_iff subs cid sd ed).mp hov), ?_⟩
    intro hno
    exact absurd ((any_overlapsWith_iff subs cid sd ed).mp hov) hno
  · rw [if_neg hov]
    refine ⟨iff_of_false (by simp) ?_, fun _ => ⟨_, _, rfl⟩⟩
    intro hex
    exact hov ((any_overlapsWith_iff subs cid sd ed).mpr hex)

/-- The existing January subscription of the spec's overlap example. -/
def janSub : Subscription :=
  { id := 0, customerId := 1, mealPlanId := 1, periodMonth := 1,
    periodYear := 2024, startDate := ⟨2024, 1, 1⟩, endDate := ⟨2024, 1, 15⟩,
    status := "active", basePricePerMonth := 300, discount := none }

/-- C7 witness: against an existing [Jan 1, Jan 15] subscription,
[Jan 10, Jan 20] is rejected and [Jan 16, Jan 31] is created. -/
theorem C7_witness :
    createSubscription [1] [(1, 300)] [janSub] [] 1 1 1 1 2024
      ⟨2024, 1, 10⟩ ⟨2024, 1, 20⟩ (some 300) none = .overlapRejected ∧
    ∃ newSub newPay,
      createSubscription [1] [(1, 300)] [janSub] [] 1 1 1 1 2024
        ⟨2024, 1, 16⟩ ⟨2024, 1, 31⟩ (some 300) none =
        .created ([janSub] ++ [newSub]) ([] ++ [newPay]) := by
  constructor
  · exact (C7_overlap_gate [1] [(1, 300)] [janSub] [] 1 1 1 1 2024
      ⟨2024, 1, 10⟩ ⟨2024, 1, 20⟩ (some 300) none (1, 300) rfl rfl).1.mpr
      ⟨janSub, by simp, rfl, by norm_num [janSub, JSDate.dayNumber],
        by norm_num [janSub, JSDate.dayNumber]⟩
  · apply (C7_overlap_gate [1] [(1, 300)] [janSub] [] 1 1 1 1 2024
      ⟨2024, 1, 16⟩ ⟨2024, 1, 31⟩ (some 300) none (1, 300) rfl rfl).2
    rintro ⟨sub, hmem, hcid, h1, h2⟩
    rw [List.mem_singleton] at hmem
    subst hmem
    norm_num [janSub, JSDate.dayNumber] at h2

theorem any_updateBlocking_iff (payments : List Payment) (sub : Subscription) :
    (payments.any (updateBlockingPayment sub) = true) ↔
      ∃ p ∈ payments, p.customer = sub.customerId ∧
        sub.startDate.year ≤ p.year ∧ p.year ≤ sub.endDate.year ∧
        sub.startDate.month ≤ p.month ∧ p.month ≤ sub.endDate.month := by
  rw [List.any_eq_true]
  constructor
  · rintro ⟨p, hmem, hb⟩
    rw [updateBlockingPayment, Bool.and_eq_true, Bool.and_eq_true,
      Bool.and_eq_true, Bool.and_eq_true] at hb
    exact ⟨p, hmem, by simpa using hb.1.1.1.1, by simpa using hb.1.1.1.2,
      by simpa using hb.1.1.2, by simpa using hb.1.2, by simpa using hb.2⟩
  · rintro ⟨p, hmem, h1, h2, h3, h4, h5⟩
    exact ⟨p, hmem, by simp [updateBlockingPayment, h1, h2, h3, h4, h5]⟩

theorem any_deleteBlocking_iff (payments : List Payment) (sub : Subscription) :
    (payments.any (deleteBlockingPayment sub) = true) ↔
      ∃ p ∈ payments, p.customer = sub.customerId ∧
        sub.startDate.year ≤ p.year ∧ p.year ≤ sub.endDate.year := by
  rw [List.any_eq_true]
  constructor
  · rintro ⟨p, hmem, hb⟩
    rw [deleteBlockingPayment, Bool.and_eq_true, Bool.and_eq_true] at hb
    exact ⟨p, hmem, by simpa using hb.1.1, by simpa using hb.1.2,
      by simpa using hb.2⟩
  · rintro ⟨p, hmem, h1, h2, h3⟩
    exact ⟨p, hmem, by simp [deleteBlockingPayment, h1, h2, h3]⟩

/-- The March 2024 subscription of the C2 counterexample. -/
def c2sub : Subscription :=
  { id := 0, customerId := 1, mealPlanId := 1, periodMonth := 3,
    periodYear := 2024, startDate := ⟨2024, 3, 1⟩, endDate := ⟨2024, 3, 31⟩,
    status := "active", basePricePerMonth := 300, discount := none }

/-- A January 2024 payment of the same customer: its year (2024) lies in
the subscription's year range, but its month (1) is outside [3, 3]. -/
def c2payJan : Payment :=
  { customer := 1, month := 1, year := 2024,
    periodStart := ⟨2024, 1, 1⟩, periodEnd := ⟨2024, 1, 31⟩, amountDue := 100 }

/-- A March 2024 payment of the same customer: blocks both mutations. -/
def c2payMar : Payment :=
  { customer := 1, month := 3, year := 2024,
    periodStart := ⟨2024, 3, 1⟩, periodEnd := ⟨2024, 3, 31⟩, amountDue := 100 }

/-- C2 counterexample: a payment of the subscription's customer whose year
lies in the start/end year range exists (January 2024 against a March 2024
subscription), yet `updateSubscription` proceeds — the update guard also
filters by month, so the claimed year-only characterization is false. -/
theorem C2_counterexample :
    c2payJan.customer = c2sub.customerId ∧
    c2sub.startDate.year ≤ c2payJan.year ∧ c2payJan.year ≤ c2sub.endDate.year ∧
    updateSubscription [c2sub] [c2payJan] 0 (fun t => t) = .ok [c2sub] := by
  refine ⟨rfl, by norm_num [c2sub, c2payJan], by norm_num [c2sub, c2payJan], ?_⟩
  rfl

/-- C2 (amended): when the id resolves to a subscription, deletion is
rejected exactly when a payment of that customer has its year in the
inclusive start/end year range; update is rejected exactly when such a
payment additionally has its month in the inclusive numeric range from the
start date's month to the end date's month. -/
theorem C2_mutation_guards (subs : List Subscription) (payments : List Payment)
    (id : ℕ) (applyUpdate : Subscription → Subscription) (sub : Subscription)
    (hfind : subs.find? (fun t => t.id == id) = some sub) :
    (updateSubscription subs payments id applyUpdate = .error .paymentsExist ↔
      ∃ p ∈ payments, p.customer = sub.customerId ∧
        sub.startDate.year ≤ p.year ∧ p.year ≤ sub.endDate.year ∧
        sub.startDate.month ≤ p.month ∧ p.month ≤ sub.endDate.month) ∧
    (deleteSubscription subs payments id = .error .paymentsExist ↔
      ∃ p ∈ payments, p.customer = sub.customerId ∧
        sub.startDate.year ≤ p.year ∧ p.year ≤ sub.endDate.year) := by
  rw [updateSubscription, deleteSubscription, hfind]
  dsimp only
  constructor
  · by_cases h : payments.any (updateBlockingPayment sub) = true
    · rw [if_pos h]
      exact iff_of_true rfl ((any_updateBlocking_iff payments sub).mp h)
    · rw [if_neg h]
      exact iff_of_false (by simp)
        (fun hex => h ((any_updateBlocking_iff payments sub).mpr hex))
  · by_cases h : payments.any (deleteBlockingPayment sub) = true
    · rw [if_pos h]
      exact iff_of_true rfl ((any_deleteBlocking_iff payments sub).mp h)
    · rw [if_neg h]
      exact iff_of_false (by simp)
        (fun hex => h ((any_deleteBlocking_iff payments sub).mpr hex))

/-- C2 witness: the amended guards at the March subscription with a March
payment in the store. -/
theorem C2_witness :
    (updateSubscription [c2sub] [c2payMar] 0 (fun t => t) =
        .error .paymentsExist ↔
      ∃ p ∈ [c2payMar], p.customer = c2sub.customerId ∧
        c2sub.startDate.year ≤ p.year ∧ p.year ≤ c2sub.endDate.year ∧
        c2sub.startDate.month ≤ p.month ∧ p.month ≤ c2sub.endDate.month) ∧
    (deleteSubscription [c2sub] [c2payMar] 0 = .error .paymentsExist ↔
      ∃ p ∈ [c2payMar], p.customer = c2sub.customerId ∧
        c2sub.startDate.year ≤ p.year ∧ p.year ≤ c2sub.endDate.year) :=
  C2_mutation_guards [c2sub] [c2payMar] 0 (fun t => t) c2sub rfl

theorem backfillLoop_fst (l : List Subscription) (store : List Payment) :
    (backfillLoop l store).1 = store ++ (backfillLoop l store).2 := by
  induction l generalizing store with
  | nil => simp [backfillLoop]
  | cons sub rest ih =>
    rw [backfillLoop]
    split_ifs with h
    · exact ih store
    · dsimp only
      rw [ih (store ++ [backfillPayment sub]), List.append_assoc]
      rfl

theorem backfillLoop_any_mono {f : Payment → Bool} {store : List Payment}
    (l : List Subscription) (h : store.any f = true) :
    ((backfillLoop l store).1).any f = true := by
  rw [backfillLoop_fst, List.any_append, h, Bool.true_or]

theorem backfillPayment_matches (sub : Subscription) :
    paymentMatches sub (backfillPayment sub) = true := by
  simp [paymentMatches, backfillPayment]

theorem backfillLoop_complete (l : List Subscription) (store : List Payment) :
    ∀ sub ∈ l, ((backfillLoop l store).1).any (paymentMatches sub) = true := by
  induction l generalizing store with
  | nil => intro sub h; exact absurd h (List.not_mem_nil sub)
  | cons head rest ih =>
    intro sub hmem
    rw [backfillLoop]
    split_ifs with h
    · rcases List.mem_cons.mp hmem with rfl | hr
      · exact backfillLoop_any_mono rest h
      · exact ih store sub hr
    · dsimp only
      rcases List.mem_cons.mp hmem with rfl | hr
      · apply backfillLoop_any_mono
        rw [List.any_append]
        simp [backfillPayment_matches]
      · exact ih (store ++ [backfillPayment head]) sub hr

theorem backfillLoop_skip :
    ∀ (l : List Subscription) (store : List Payment),
      (∀ sub ∈ l, store.any (paymentMatches sub) = true) →
      (backfillLoop l store).2 = []
  | [], _, _ => rfl
  | head :: rest, store, h => by
    rw [backfillLoop, if_pos (h head (by simp))]
    exact backfillLoop_skip rest store (fun sub hm => h sub (by simp [hm]))

/-- C9: the backfill is idempotent. After one run of
`generatePaymentsForExistingSubscriptions`, every active subscription has a
payment in the store matching it by customer, period month, period year and
exact period snapshot, so a second run over the resulting store creates no
payment. -/
theorem C9_backfill_idempotent (subs : List Subscription)
    (store : List Payment) :
    (generatePaymentsForExistingSubscriptions subs
      (generatePaymentsForExistingSubscriptions subs store).1).2 = [] := by
  rw [generatePaymentsForExistingSubscriptions,
    generatePaymentsForExistingSubscriptions]
  exact backfillLoop_skip _ _
    (fun sub hmem => backfillLoop_complete _ store sub hmem)

end Food2Home
